import Mathlib

/-!
Shallow embedding of two LibrePCB source files and proofs about them:

* `librepcb/library/pkg/footprintpad.cpp` — the `FootprintPad` value class
  (geometry, validation, S-expression serialization).
* `project/schematics/fsm/ses_addcomponents.cpp` — the `SES_AddComponents`
  schematic-editor state machine (add-component workflow).

Helper types that live in other files of the repository (`Length`, `Angle`,
`Point`, `Uuid`, `SExpression`, the undo stack, the project library, the
symbol-edit undo command) are modelled from the specification, which
describes them as straightforward value objects and GUI/undo-stack glue;
external effects (dialogs, library lookups, undo-stack failures) are
represented by explicit oracle fields of an environment record.
-/

namespace librepcb

/-- Modelled from the spec: `Length` (missing from the sources) is a
fixed-point integer number of nanometres; arithmetic and order are those of
the integers. -/
abbrev Length : Type := Int

/-- Modelled from the spec: `Angle` (missing from the sources) is an integer
number of microdegrees. -/
abbrev Angle : Type := Int

/-- Modelled from the spec: `Angle::deg90()` is ninety degrees expressed in
microdegrees. -/
def angleDeg90 : Angle := 90000000

/-- Modelled from the spec: a `Uuid`/`QUuid` is either the null UUID or a
concrete identifier (abstracted to a natural number). -/
abbrev Uuid : Type := Option Nat

/-- Modelled from the spec: `Uuid::isNull()` / `QUuid::isNull()`. -/
def uuidIsNull (u : Uuid) : Bool := u.isNone

/-- Modelled from the spec: `Point` (missing from the sources) is a pair of
lengths. -/
structure Point where
  x : Length
  y : Length
deriving DecidableEq, Repr

/-- `FootprintPad::Shape` from `footprintpad.h`. -/
inductive Shape where
  | ROUND
  | RECT
  | OCTAGON
deriving DecidableEq, Repr

/-- `FootprintPad::BoardSide` from `footprintpad.h`. -/
inductive BoardSide where
  | TOP
  | BOTTOM
  | THT
deriving DecidableEq, Repr

/-- Exceptions thrown by the embedded code: `UserCanceled`, `LogicError` and
`RuntimeError` (all derived from `Exception`). -/
inductive Exc where
  | userCanceled
  | logicError
  | runtimeError
deriving DecidableEq, Repr

/-- `FootprintPad::stringToShape` (footprintpad.cpp lines 249-255): maps the
three valid names to shapes and throws a `RuntimeError` otherwise. -/
def stringToShape (s : String) : Except Exc Shape :=
  if s = "round" then Except.ok Shape.ROUND
  else if s = "rect" then Except.ok Shape.RECT
  else if s = "octagon" then Except.ok Shape.OCTAGON
  else Except.error Exc.runtimeError

/-- `FootprintPad::shapeToString` (footprintpad.cpp lines 257-266). -/
def shapeToString : Shape → String
  | Shape.ROUND => "round"
  | Shape.RECT => "rect"
  | Shape.OCTAGON => "octagon"

/-- `FootprintPad::stringToBoardSide` (footprintpad.cpp lines 268-274). -/
def stringToBoardSide (s : String) : Except Exc BoardSide :=
  if s = "top" then Except.ok BoardSide.TOP
  else if s = "bottom" then Except.ok BoardSide.BOTTOM
  else if s = "tht" then Except.ok BoardSide.THT
  else Except.error Exc.runtimeError

/-- `FootprintPad::boardSideToString` (footprintpad.cpp lines 276-285). -/
def boardSideToString : BoardSide → String
  | BoardSide.TOP => "top"
  | BoardSide.BOTTOM => "bottom"
  | BoardSide.THT => "tht"

/-- Modelled from the spec: an atomic token of an `SExpression`, carrying one
serialized primitive value. -/
inductive Token where
  | uuidTok (u : Uuid)
  | strTok (s : String)
  | angleTok (a : Angle)
  | lengthTok (l : Length)
deriving DecidableEq, Repr

/-- Modelled from the spec: a node of an `SExpression` tree, either a bare
token or a named element with a list of children. -/
inductive SNode where
  | token (t : Token)
  | child (name : String) (children : List SNode)
deriving Repr

/-- Modelled from the spec: `SExpression::getChildByIndex`. -/
def getChildByIndex (cs : List SNode) (i : Nat) : Option SNode := cs.get? i

/-- Modelled from the spec: `SExpression::getChildByPath` returns the body of
the first named child element matching the path (one level deep here). -/
def getChildByPath : List SNode → String → Option (List SNode)
  | [], _ => none
  | SNode.token _ :: rest, name => getChildByPath rest name
  | SNode.child n body :: rest, name =>
      if n = name then some body else getChildByPath rest name

/-- Modelled from the spec: the first bare token among a node's children,
used by `getValueByPath`. -/
def firstTokenOf : List SNode → Option Token
  | [] => none
  | SNode.token t :: _ => some t
  | SNode.child _ _ :: rest => firstTokenOf rest

/-- Modelled from the spec: the token reached by `getValueByPath(name)`. -/
def tokenAtPath (cs : List SNode) (name : String) : Option Token :=
  (getChildByPath cs name).bind firstTokenOf

/-- Modelled from the spec: the token of a node that is itself a token. -/
def tokenOfNode : Option SNode → Option Token
  | some (SNode.token t) => some t
  | _ => none

/-- Modelled from the spec: `getValue<Uuid>(true)` — throws on a missing or
non-UUID token. -/
def getUuidValue : Option Token → Except Exc Uuid
  | some (Token.uuidTok u) => Except.ok u
  | _ => Except.error Exc.runtimeError

/-- Modelled from the spec: `getValue<QString>(true)`. -/
def getStrValue : Option Token → Except Exc String
  | some (Token.strTok s) => Except.ok s
  | _ => Except.error Exc.runtimeError

/-- Modelled from the spec: `getValue<Angle>(true)`. -/
def getAngleValue : Option Token → Except Exc Angle
  | some (Token.angleTok a) => Except.ok a
  | _ => Except.error Exc.runtimeError

/-- Modelled from the spec: `getValue<Length>(true)`. -/
def getLengthValue : Option Token → Except Exc Length
  | some (Token.lengthTok l) => Except.ok l
  | _ => Except.error Exc.runtimeError

/-- Modelled from the spec: `Point::serializeToDomElement(name)` writes the
two coordinates as named length tokens. -/
def pointSerialize (name : String) (p : Point) : SNode :=
  SNode.child name
    [SNode.child "x" [SNode.token (Token.lengthTok p.x)],
     SNode.child "y" [SNode.token (Token.lengthTok p.y)]]

/-- Modelled from the spec: the `Point(const SExpression&)` constructor reads
the two coordinates back and throws on malformed input. -/
def pointFromSExpr (cs : List SNode) : Except Exc Point :=
  match tokenAtPath cs "x", tokenAtPath cs "y" with
  | some (Token.lengthTok a), some (Token.lengthTok b) => Except.ok ⟨a, b⟩
  | _, _ => Except.error Exc.runtimeError

/-- The `FootprintPad` class (footprintpad.h/.cpp): eight data attributes
plus the registered-graphics-item pointer (abstracted to an optional id). -/
structure FootprintPad where
  mPackagePadUuid : Uuid
  mPosition : Point
  mRotation : Angle
  mShape : Shape
  mWidth : Length
  mHeight : Length
  mDrillDiameter : Length
  mBoardSide : BoardSide
  mRegisteredGraphicsItem : Option Nat
deriving DecidableEq, Repr

/-- `FootprintPad::checkAttributesValidity` (footprintpad.cpp lines 236-243). -/
def FootprintPad.checkAttributesValidity (p : FootprintPad) : Bool :=
  if uuidIsNull p.mPackagePadUuid then false
  else if p.mWidth ≤ 0 then false
  else if p.mHeight ≤ 0 then false
  else if p.mDrillDiameter < 0 then false
  else true

/-- `FootprintPad::serialize` (footprintpad.cpp lines 189-200): validity is
checked before anything is appended; on failure a `LogicError` is thrown and
the root is left unchanged, otherwise the attributes are appended in source
order (uuid token, side, shape, pos, rot, size, drill). -/
def FootprintPad.serialize (p : FootprintPad) (root : List SNode) :
    List SNode × Option Exc :=
  if p.checkAttributesValidity = false then (root, some Exc.logicError)
  else
    (root ++
      [SNode.token (Token.uuidTok p.mPackagePadUuid),
       SNode.child "side" [SNode.token (Token.strTok (boardSideToString p.mBoardSide))],
       SNode.child "shape" [SNode.token (Token.strTok (shapeToString p.mShape))],
       pointSerialize "pos" p.mPosition,
       SNode.child "rot" [SNode.token (Token.angleTok p.mRotation)],
       pointSerialize "size" ⟨p.mWidth, p.mHeight⟩,
       SNode.child "drill" [SNode.token (Token.lengthTok p.mDrillDiameter)]],
     none)

/-- Modelled from the spec: `getChildByPath` throws on a missing child. -/
def requireChild (o : Option (List SNode)) : Except Exc (List SNode) :=
  match o with
  | some b => Except.ok b
  | none => Except.error Exc.runtimeError

/-- The attribute-reading prefix of `FootprintPad::FootprintPad(const
SExpression&)` (footprintpad.cpp lines 53-65), in source read order: uuid,
pos, rot, side, shape, drill, size. -/
def FootprintPad.parseAttributes (node : List SNode) : Except Exc FootprintPad := do
  let u ← getUuidValue (tokenOfNode (getChildByIndex node 0))
  let posBody ← requireChild (getChildByPath node "pos")
  let pos ← pointFromSExpr posBody
  let rot ← getAngleValue (tokenAtPath node "rot")
  let sideStr ← getStrValue (tokenAtPath node "side")
  let side ← stringToBoardSide sideStr
  let shapeStr ← getStrValue (tokenAtPath node "shape")
  let shp ← stringToShape shapeStr
  let drill ← getLengthValue (tokenAtPath node "drill")
  let sizeBody ← requireChild (getChildByPath node "size")
  let size ← pointFromSExpr sizeBody
  Except.ok
    { mPackagePadUuid := u, mPosition := pos, mRotation := rot, mShape := shp,
      mWidth := size.x, mHeight := size.y, mDrillDiameter := drill,
      mBoardSide := side, mRegisteredGraphicsItem := none }

/-- `FootprintPad::FootprintPad(const SExpression&)` (footprintpad.cpp lines
53-67): read the attributes, then throw a `LogicError` if they are invalid. -/
def FootprintPad.fromSExpression (node : List SNode) : Except Exc FootprintPad :=
  match FootprintPad.parseAttributes node with
  | Except.error e => Except.error e
  | Except.ok p =>
      if p.checkAttributesValidity then Except.ok p else Except.error Exc.logicError

/-- `FootprintPad::operator==` (footprintpad.cpp lines 206-217): the eight
data attributes are compared one after the other. -/
def FootprintPad.eqOp (a b : FootprintPad) : Bool :=
  if a.mPackagePadUuid ≠ b.mPackagePadUuid then false
  else if a.mPosition ≠ b.mPosition then false
  else if a.mRotation ≠ b.mRotation then false
  else if a.mShape ≠ b.mShape then false
  else if a.mWidth ≠ b.mWidth then false
  else if a.mHeight ≠ b.mHeight then false
  else if a.mDrillDiameter ≠ b.mDrillDiameter then false
  else if a.mBoardSide ≠ b.mBoardSide then false
  else true

/-- `FootprintPad::operator=` (footprintpad.cpp lines 219-230): copies the
eight data attributes of `b` into `a`, leaving `mRegisteredGraphicsItem`
untouched. -/
def FootprintPad.assign (a b : FootprintPad) : FootprintPad :=
  { mPackagePadUuid := b.mPackagePadUuid, mPosition := b.mPosition,
    mRotation := b.mRotation, mShape := b.mShape, mWidth := b.mWidth,
    mHeight := b.mHeight, mDrillDiameter := b.mDrillDiameter,
    mBoardSide := b.mBoardSide,
    mRegisteredGraphicsItem := a.mRegisteredGraphicsItem }

/-- `FootprintPad::FootprintPad(const FootprintPad&)` (footprintpad.cpp lines
38-42): initializes the graphics-item pointer to null, then uses the
assignment operator (the data fields before assignment are irrelevant since
the assignment overwrites all of them). -/
def FootprintPad.copyCtor (other : FootprintPad) : FootprintPad :=
  FootprintPad.assign { other with mRegisteredGraphicsItem := none } other

/-- `FootprintPad::setPosition` (footprintpad.cpp lines 125-129); the
graphics-item notification is an external effect with no pad state. -/
def FootprintPad.setPosition (p : FootprintPad) (pos : Point) : FootprintPad :=
  { p with mPosition := pos }

/-- `FootprintPad::setPackagePadUuid` (footprintpad.cpp lines 131-134). -/
def FootprintPad.setPackagePadUuid (p : FootprintPad) (pad : Uuid) : FootprintPad :=
  { p with mPackagePadUuid := pad }

/-- `FootprintPad::setRotation` (footprintpad.cpp lines 136-140). -/
def FootprintPad.setRotation (p : FootprintPad) (rot : Angle) : FootprintPad :=
  { p with mRotation := rot }

/-- `FootprintPad::setShape` (footprintpad.cpp lines 142-146). -/
def FootprintPad.setShape (p : FootprintPad) (shape : Shape) : FootprintPad :=
  { p with mShape := shape }

/-- `FootprintPad::setWidth` (footprintpad.cpp lines 148-152). -/
def FootprintPad.setWidth (p : FootprintPad) (width : Length) : FootprintPad :=
  { p with mWidth := width }

/-- `FootprintPad::setHeight` (footprintpad.cpp lines 154-158). -/
def FootprintPad.setHeight (p : FootprintPad) (height : Length) : FootprintPad :=
  { p with mHeight := height }

/-- `FootprintPad::setDrillDiameter` (footprintpad.cpp lines 160-164). -/
def FootprintPad.setDrillDiameter (p : FootprintPad) (diameter : Length) : FootprintPad :=
  { p with mDrillDiameter := diameter }

/-- `FootprintPad::setBoardSide` (footprintpad.cpp lines 166-171). -/
def FootprintPad.setBoardSide (p : FootprintPad) (side : BoardSide) : FootprintPad :=
  { p with mBoardSide := side }

/-- Modelled from the spec: the `Path` class (missing from the sources) as
far as `FootprintPad::getOutline` uses it — the empty path and the three
factory methods `Path::obround`, `Path::centeredRect`, `Path::octagon`, each
determined by a width and a height. -/
inductive Path where
  | empty
  | obround (width height : Length)
  | centeredRect (width height : Length)
  | octagon (width height : Length)
deriving DecidableEq, Repr

/-- `FootprintPad::getOutline` (footprintpad.cpp lines 97-110). -/
def FootprintPad.getOutline (p : FootprintPad) (expansion : Length) : Path :=
  let width : Length := p.mWidth + expansion * 2
  let height : Length := p.mHeight + expansion * 2
  if width > 0 ∧ height > 0 then
    match p.mShape with
    | Shape.ROUND => Path.obround width height
    | Shape.RECT => Path.centeredRect width height
    | Shape.OCTAGON => Path.octagon width height
  else Path.empty

/-- Modelled from the spec: a symbol variant item of a generic component,
identified by its UUID. -/
structure SymbVarItem where
  uuid : Uuid
deriving DecidableEq, Repr

/-- Modelled from the spec: a symbol variant of a generic component — a UUID
and an ordered list of symbol variant items. -/
structure SymbVar where
  uuid : Uuid
  items : List SymbVarItem
deriving DecidableEq, Repr

/-- Modelled from the spec: a generic component of the project library — a
UUID, a version and its symbol variants. -/
structure GenComp where
  uuid : Uuid
  version : Nat
  symbolVariants : List SymbVar
deriving DecidableEq, Repr

/-- Modelled from the spec: `GenericComponent::getSymbolVariantByUuid` — the
first variant with the given UUID, or null. -/
def getSymbolVariantByUuid (gc : GenComp) (u : Uuid) : Option SymbVar :=
  gc.symbolVariants.find? (fun sv => sv.uuid = u)

/-- Helper for `getNextItem`: the element following the first occurrence of
`c` in the list. -/
def nextAfter : List SymbVarItem → SymbVarItem → Option SymbVarItem
  | [], _ => none
  | x :: xs, c => if x = c then xs.head? else nextAfter xs c

/-- Modelled from the spec: `GenCompSymbVar::getNextItem(item)` — the item
following the given one in the variant's item list (the first item when the
given one is null), or null when the given item was the last. -/
def getNextItem (sv : SymbVar) (cur : Option SymbVarItem) : Option SymbVarItem :=
  match cur with
  | none => sv.items.head?
  | some c => nextAfter sv.items c

/-- Modelled from the spec: a placed `SymbolInstance`, abstracted to its
position (`getPosition` is all the state machine reads from it). -/
structure SymbolInstance where
  pos : Point
deriving DecidableEq, Repr

/-- Modelled from the spec: one operation recorded by the symbol-edit undo
command `CmdSymbolInstanceEdit`. -/
inductive EditOp where
  | setPos (p : Point) (immediate : Bool)
  | setRot (a : Angle) (immediate : Bool)
  | rotateOp (a : Angle) (center : Point) (immediate : Bool)
deriving DecidableEq, Repr

/-- Modelled from the spec: the symbol-edit undo command
`CmdSymbolInstanceEdit`, abstracted to the list of operations recorded on
it. -/
structure EditCmd where
  ops : List EditOp
deriving DecidableEq, Repr

/-- Modelled from the spec: `CmdSymbolInstanceEdit::setPosition`. -/
def EditCmd.setPosition (c : EditCmd) (p : Point) (immediate : Bool) : EditCmd :=
  { ops := c.ops ++ [EditOp.setPos p immediate] }

/-- Modelled from the spec: `CmdSymbolInstanceEdit::setRotation`. -/
def EditCmd.setRotation (c : EditCmd) (a : Angle) (immediate : Bool) : EditCmd :=
  { ops := c.ops ++ [EditOp.setRot a immediate] }

/-- Modelled from the spec: `CmdSymbolInstanceEdit::rotate(angle, center,
immediate)`. -/
def EditCmd.rotate (c : EditCmd) (a : Angle) (center : Point) (immediate : Bool) : EditCmd :=
  { ops := c.ops ++ [EditOp.rotateOp a center immediate] }

/-- The member state of `SES_AddComponents` (ses_addcomponents.h): pointers
are optionals, the dialog pointer is abstracted to whether it exists. -/
structure SES_AddComponents where
  mIsUndoCmdActive : Bool
  mAddGenCompDialog : Option Unit
  mLastAngle : Angle
  mGenComp : Option GenComp
  mGenCompSymbVar : Option SymbVar
  mCurrentSymbVarItem : Option SymbVarItem
  mCurrentSymbolToPlace : Option SymbolInstance
  mCurrentSymbolEditCommand : Option EditCmd
deriving DecidableEq, Repr

/-- The constructor of `SES_AddComponents` (ses_addcomponents.cpp lines
46-52): everything false/null, last angle zero. -/
def SES_AddComponents.initial : SES_AddComponents :=
  { mIsUndoCmdActive := false, mAddGenCompDialog := none, mLastAngle := 0,
    mGenComp := none, mGenCompSymbVar := none, mCurrentSymbVarItem := none,
    mCurrentSymbolToPlace := none, mCurrentSymbolEditCommand := none }

/-- Modelled from the spec: the environment of the state machine — the GUI,
project library and undo stack the code calls into. Oracle fields record the
outcome of each kind of external call (whether an active schematic exists,
the dialog result, library lookups, and whether each undo-stack operation
throws an `Exception`). -/
structure Env where
  hasActiveSchematic : Bool
  cursorPos : Point
  dialogAccepted : Bool
  fileGenCompUuid : Uuid
  fileGenCompVersion : Nat
  findGenComp : Uuid → Option GenComp
  selectedSymbVarUuid : Uuid
  beginCommandThrows : Bool
  appendCommandThrows : Bool
  endCommandThrows : Bool
  abortCommandThrows : Bool

/-- `SES_Base::ProcRetVal` — the value an editor state returns for a
processed event. -/
inductive ProcRetVal where
  | ForceStayInState
  | ForceLeaveState
  | PassToParentState
deriving DecidableEq, Repr

/-- The mouse button of a graphics-scene mouse event, with a catch-all. -/
inductive MouseButton where
  | leftButton
  | rightButton
  | otherButton (n : Nat)
deriving DecidableEq, Repr

/-- The graphics-scene `QEvent`s the state machine distinguishes, with a
catch-all for every other event type (`QEvent::type()` values). -/
inductive QEventData where
  | mouseMove (scenePos : Point)
  | mousePress (button : MouseButton) (scenePos : Point)
  | mouseDoubleClick (button : MouseButton) (scenePos : Point)
  | wheel
  | otherQEvent (n : Nat)
deriving DecidableEq, Repr

/-- The types of schematic editor events (`SEE_Base::EventType`) that
`SES_AddComponents` distinguishes, with a catch-all for every other type. -/
inductive SEE_Event where
  | abortCommandEvent
  | startAddComponent (genCompUuid symbVarUuid : Uuid)
  | editRotateCW
  | editRotateCCW
  | schematicSceneEvent (qevent : Option QEventData)
  | otherEvent (n : Nat)
deriving Repr

/-- The continuation of `SES_AddComponents::startAddingComponent` from line
335 on (ses_addcomponents.cpp lines 335-375): pointer checks, begin the undo
command, append the generic-component-instance command, pick the first
symbol variant item, append the symbol-instance command and create the
symbol-edit command. The result pairs the state at the point where control
leaves the function with the exception thrown there, if any; `none` denotes
a crash (undefined behaviour). -/
def startAddingCont (s : SES_AddComponents) (env : Env) :
    Option (SES_AddComponents × Option Exc) :=
  if s.mGenComp.isNone then some (s, some Exc.logicError)
  else if s.mGenCompSymbVar.isNone then some (s, some Exc.logicError)
  else if env.beginCommandThrows then some (s, some Exc.runtimeError)
  else
    let s1 := { s with mIsUndoCmdActive := true }
    if env.appendCommandThrows then some (s1, some Exc.runtimeError)
    else
      match s1.mGenCompSymbVar with
      | none => none
      | some sv =>
        let s2 := { s1 with mCurrentSymbVarItem := sv.items.head? }
        match sv.items.head? with
        | none => some (s2, some Exc.runtimeError)
        | some _item =>
          let s3 := { s2 with mCurrentSymbolToPlace := some { pos := env.cursorPos } }
          let cmd2 := EditCmd.setRotation { ops := [] } s3.mLastAngle true
          let s4 := { s3 with mCurrentSymbolEditCommand := some cmd2 }
          some (s4, none)

/-- `SES_AddComponents::startAddingComponent` (ses_addcomponents.cpp lines
281-375). With null UUIDs the component chooser dialog is created (if
needed) and run; otherwise the component is looked up directly — where a
failed lookup crashes on the immediate dereference at line 332 (`none`). -/
def startAddingComponent (s : SES_AddComponents) (env : Env)
    (genCompU symbVarU : Uuid) : Option (SES_AddComponents × Option Exc) :=
  if env.hasActiveSchematic = false then some (s, some Exc.logicError)
  else
    let branch : Option (SES_AddComponents × Option Exc) :=
      if uuidIsNull genCompU || uuidIsNull symbVarU then
        let s1 := { s with mAddGenCompDialog := some () }
        if env.dialogAccepted = false then some (s1, some Exc.userCanceled)
        else
          match env.findGenComp env.fileGenCompUuid with
          | some gc =>
              let s2 := { s1 with mGenComp := some gc }
              some ({ s2 with
                mGenCompSymbVar := getSymbolVariantByUuid gc env.selectedSymbVarUuid },
                none)
          | none =>
              some ({ s1 with mGenComp := none }, some Exc.runtimeError)
      else
        match env.findGenComp genCompU with
        | none => none
        | some gc =>
            some ({ s with
                      mGenComp := some gc,
                      mGenCompSymbVar := getSymbolVariantByUuid gc symbVarU },
                  none)
    match branch with
    | none => none
    | some (s1, some e) => some (s1, some e)
    | some (s1, none) => startAddingCont s1 env

/-- `SES_AddComponents::abortCommand` (ses_addcomponents.cpp lines 377-404):
delete the edit command, abort the active undo command (an `Exception` there
is caught and the method returns false), then reset the attributes. -/
def abortCommand (s : SES_AddComponents) (env : Env) (_showErrMsgBox : Bool) :
    Bool × SES_AddComponents :=
  let s1 := { s with mCurrentSymbolEditCommand := none }
  if s1.mIsUndoCmdActive then
    if env.abortCommandThrows then (false, s1)
    else
      (true, { s1 with
                 mIsUndoCmdActive := false,
                 mGenComp := none,
                 mGenCompSymbVar := none,
                 mCurrentSymbVarItem := none,
                 mCurrentSymbolToPlace := none })
  else
    (true, { s1 with
               mGenComp := none,
               mGenCompSymbVar := none,
               mCurrentSymbVarItem := none,
               mCurrentSymbolToPlace := none })

/-- `SES_AddComponents::entry` (ses_addcomponents.cpp lines 121-154): only
`StartAddComponent` events are accepted; on a failed start the active undo
command is aborted (if any) and the dialog is deleted. `none` denotes a
crash inside `startAddingComponent`. -/
def entry (s : SES_AddComponents) (env : Env) (event : Option SEE_Event) :
    Option (Bool × SES_AddComponents) :=
  match event with
  | none => some (false, s)
  | some (SEE_Event.startAddComponent gcU svU) =>
      let s1 := { s with mLastAngle := 0 }
      match startAddingComponent s1 env gcU svU with
      | none => none
      | some (s2, none) => some (true, s2)
      | some (s2, some _exc) =>
          let s3 := if s2.mIsUndoCmdActive then (abortCommand s2 env false).2 else s2
          some (false, { s3 with mAddGenCompDialog := none })
  | some _ => some (false, s)

/-- `SES_AddComponents::exit` (ses_addcomponents.cpp lines 156-165). -/
def exitState (s : SES_AddComponents) (env : Env) : Bool × SES_AddComponents :=
  match abortCommand s env true with
  | (false, s1) => (false, s1)
  | (true, s1) => (true, { s1 with mAddGenCompDialog := none })

/-- The `Qt::LeftButton` branch of the mouse-press case of
`SES_AddComponents::processSceneEvent` (ses_addcomponents.cpp lines
200-251), including its catch handler (message box, `abortCommand(false)`,
`ForceLeaveState`). `none` denotes a crash on a null dereference. -/
def processLeftClick (s : SES_AddComponents) (env : Env) (pos : Point) :
    Option (ProcRetVal × SES_AddComponents) :=
  match s.mCurrentSymbolEditCommand with
  | none => none
  | some cmd =>
    let cmd1 := EditCmd.setPosition cmd pos false
    if env.appendCommandThrows then
      let sThrow := { s with mCurrentSymbolEditCommand := some cmd1 }
      some (ProcRetVal.ForceLeaveState, (abortCommand sThrow env false).2)
    else
      let s1 := { s with mCurrentSymbolEditCommand := none }
      if env.endCommandThrows then
        some (ProcRetVal.ForceLeaveState, (abortCommand s1 env false).2)
      else
        let s2 := { s1 with mIsUndoCmdActive := false }
        if env.beginCommandThrows then
          some (ProcRetVal.ForceLeaveState, (abortCommand s2 env false).2)
        else
          let s3 := { s2 with mIsUndoCmdActive := true }
          match s3.mGenCompSymbVar with
          | none => none
          | some sv =>
            let nxt := getNextItem sv s3.mCurrentSymbVarItem
            let s4 := { s3 with mCurrentSymbVarItem := nxt }
            match nxt with
            | some _item =>
              match s4.mCurrentSymbolToPlace with
              | none => none
              | some _old =>
                let s5 := { s4 with mCurrentSymbolToPlace := some { pos := pos } }
                let cmdNew := EditCmd.setRotation { ops := [] } s5.mLastAngle true
                let s6 := { s5 with mCurrentSymbolEditCommand := some cmdNew }
                some (ProcRetVal.ForceStayInState, s6)
            | none =>
              match s4.mGenComp with
              | none => none
              | some gc =>
                if env.endCommandThrows then
                  some (ProcRetVal.ForceLeaveState, (abortCommand s4 env false).2)
                else
                  let s5 := { s4 with mIsUndoCmdActive := false }
                  let s6 := (abortCommand s5 env false).2
                  match startAddingComponent s6 env gc.uuid sv.uuid with
                  | none => none
                  | some (s7, none) => some (ProcRetVal.ForceStayInState, s7)
                  | some (s7, some _e) =>
                      some (ProcRetVal.ForceLeaveState, (abortCommand s7 env false).2)

/-- `SES_AddComponents::processSceneEvent` (ses_addcomponents.cpp lines
171-279): null event or no active schematic or no active undo command pass
to the parent; mouse move updates the temporary position (and falls through
to `PassToParentState`); left press places the symbol; right press rotates;
every other event is swallowed (`ForceStayInState`) except the wheel.
`none` denotes a crash on a null dereference. -/
def processSceneEvent (s : SES_AddComponents) (env : Env)
    (qevent : Option QEventData) : Option (ProcRetVal × SES_AddComponents) :=
  match qevent with
  | none => some (ProcRetVal.PassToParentState, s)
  | some qe =>
    if env.hasActiveSchematic = false then some (ProcRetVal.PassToParentState, s)
    else if s.mIsUndoCmdActive = false then some (ProcRetVal.PassToParentState, s)
    else
      match qe with
      | QEventData.mouseMove pos =>
          match s.mCurrentSymbolEditCommand with
          | none => none
          | some cmd =>
              let cmd1 := EditCmd.setPosition cmd pos true
              some (ProcRetVal.PassToParentState,
                { s with mCurrentSymbolEditCommand := some cmd1 })
      | QEventData.mousePress b pos =>
          match b with
          | MouseButton.leftButton => processLeftClick s env pos
          | MouseButton.rightButton =>
              match s.mCurrentSymbolEditCommand with
              | none => none
              | some cmd =>
                  let a := s.mLastAngle - angleDeg90
                  let cmd1 := EditCmd.setRotation cmd a true
                  some (ProcRetVal.ForceStayInState,
                    { s with mLastAngle := a, mCurrentSymbolEditCommand := some cmd1 })
          | MouseButton.otherButton _ => some (ProcRetVal.PassToParentState, s)
      | QEventData.mouseDoubleClick b pos =>
          match b with
          | MouseButton.leftButton => processLeftClick s env pos
          | MouseButton.rightButton =>
              match s.mCurrentSymbolEditCommand with
              | none => none
              | some cmd =>
                  let a := s.mLastAngle - angleDeg90
                  let cmd1 := EditCmd.setRotation cmd a true
                  some (ProcRetVal.ForceStayInState,
                    { s with mLastAngle := a, mCurrentSymbolEditCommand := some cmd1 })
          | MouseButton.otherButton _ => some (ProcRetVal.PassToParentState, s)
      | QEventData.wheel => some (ProcRetVal.PassToParentState, s)
      | QEventData.otherQEvent _ => some (ProcRetVal.ForceStayInState, s)

/-- `SES_AddComponents::process` (ses_addcomponents.cpp lines 62-119).
`none` denotes a crash on a null dereference (in particular the unguarded
dereferences of `mCurrentSymbolEditCommand` and `mCurrentSymbolToPlace` in
the rotate cases at lines 108-113). -/
def process (s : SES_AddComponents) (env : Env) (e : SEE_Event) :
    Option (ProcRetVal × SES_AddComponents) :=
  match e with
  | SEE_Event.abortCommandEvent =>
      if s.mAddGenCompDialog.isSome then
        match abortCommand s env true with
        | (false, s1) => some (ProcRetVal.PassToParentState, s1)
        | (true, s1) =>
          let s2 := { s1 with mLastAngle := 0 }
          match startAddingComponent s2 env none none with
          | none => none
          | some (s3, none) => some (ProcRetVal.ForceStayInState, s3)
          | some (s3, some _e) => some (ProcRetVal.PassToParentState, s3)
      else some (ProcRetVal.PassToParentState, s)
  | SEE_Event.startAddComponent gcU svU =>
      match abortCommand s env true with
      | (false, s1) => some (ProcRetVal.PassToParentState, s1)
      | (true, s1) =>
        let s2 := { s1 with mLastAngle := 0 }
        match startAddingComponent s2 env gcU svU with
        | none => none
        | some (s3, none) => some (ProcRetVal.ForceStayInState, s3)
        | some (s3, some _e) => some (ProcRetVal.PassToParentState, s3)
  | SEE_Event.editRotateCW =>
      match s.mCurrentSymbolEditCommand, s.mCurrentSymbolToPlace with
      | some cmd, some sym =>
          let cmd1 := EditCmd.rotate cmd angleDeg90 sym.pos true
          some (ProcRetVal.ForceStayInState,
            { s with mCurrentSymbolEditCommand := some cmd1 })
      | _, _ => none
  | SEE_Event.editRotateCCW =>
      match s.mCurrentSymbolEditCommand, s.mCurrentSymbolToPlace with
      | some cmd, some sym =>
          let cmd1 := EditCmd.rotate cmd (-angleDeg90) sym.pos true
          some (ProcRetVal.ForceStayInState,
            { s with mCurrentSymbolEditCommand := some cmd1 })
      | _, _ => none
  | SEE_Event.schematicSceneEvent qevent => processSceneEvent s env qevent
  | SEE_Event.otherEvent _ => some (ProcRetVal.PassToParentState, s)

/-! ## Theorems about `FootprintPad` -/

/-- A concrete valid pad used as input by several witnesses. -/
def padW : FootprintPad :=
  { mPackagePadUuid := some 7, mPosition := ⟨1, 2⟩, mRotation := 0,
    mShape := Shape.ROUND, mWidth := 4, mHeight := 2, mDrillDiameter := 1,
    mBoardSide := BoardSide.THT, mRegisteredGraphicsItem := none }

/-- Claim C3: for both `Shape` and `BoardSide`, converting an enum value to
its string and back is the identity for every enum value, and for every
string outside the three valid names of each enumeration the string-to-enum
conversion throws a `RuntimeError`. -/
theorem C3_enum_string_conversions :
    (∀ sh : Shape, stringToShape (shapeToString sh) = Except.ok sh) ∧
    (∀ bs : BoardSide, stringToBoardSide (boardSideToString bs) = Except.ok bs) ∧
    (∀ s : String, s ≠ "round" → s ≠ "rect" → s ≠ "octagon" →
      stringToShape s = Except.error Exc.runtimeError) ∧
    (∀ s : String, s ≠ "top" → s ≠ "bottom" → s ≠ "tht" →
      stringToBoardSide s = Except.error Exc.runtimeError) := by
  refine ⟨?_, ?_, ?_, ?_⟩
  · intro sh; cases sh <;> rfl
  · intro bs; cases bs <;> rfl
  · intro s h1 h2 h3; simp [stringToShape, h1, h2, h3]
  · intro s h1 h2 h3; simp [stringToBoardSide, h1, h2, h3]

/-- Witness for C3 at concrete inputs. -/
theorem C3_enum_string_conversions_witness :
    stringToShape (shapeToString Shape.RECT) = Except.ok Shape.RECT ∧
    stringToShape "circle" = Except.error Exc.runtimeError ∧
    stringToBoardSide "left" = Except.error Exc.runtimeError :=
  ⟨C3_enum_string_conversions.1 Shape.RECT,
   C3_enum_string_conversions.2.2.1 "circle" (by decide) (by decide) (by decide),
   C3_enum_string_conversions.2.2.2 "left" (by decide) (by decide) (by decide)⟩

/-- Claim C4: `getOutline(expansion)` returns the obround path for
`Shape::ROUND`, the centered rectangle for `Shape::RECT` and the octagon for
`Shape::OCTAGON`, each with width `mWidth + 2*expansion` and height
`mHeight + 2*expansion`, whenever both expanded dimensions are strictly
positive; otherwise it returns the empty path. -/
theorem C4_getOutline_shapes (p : FootprintPad) (expansion : Length) :
    (0 < p.mWidth + 2 * expansion → 0 < p.mHeight + 2 * expansion →
      p.getOutline expansion =
        (match p.mShape with
         | Shape.ROUND =>
             Path.obround (p.mWidth + 2 * expansion) (p.mHeight + 2 * expansion)
         | Shape.RECT =>
             Path.centeredRect (p.mWidth + 2 * expansion) (p.mHeight + 2 * expansion)
         | Shape.OCTAGON =>
             Path.octagon (p.mWidth + 2 * expansion) (p.mHeight + 2 * expansion))) ∧
    (¬(0 < p.mWidth + 2 * expansion ∧ 0 < p.mHeight + 2 * expansion) →
      p.getOutline expansion = Path.empty) := by
  have e1 : p.mWidth + expansion * 2 = p.mWidth + 2 * expansion := by ring
  have e2 : p.mHeight + expansion * 2 = p.mHeight + 2 * expansion := by ring
  constructor
  · intro hw hh
    have hcond : p.mWidth + expansion * 2 > 0 ∧ p.mHeight + expansion * 2 > 0 := by
      rw [e1, e2]; exact ⟨hw, hh⟩
    simp only [FootprintPad.getOutline]
    rw [if_pos hcond]
    cases hsh : p.mShape <;> simp [hsh, e1, e2]
  · intro hneg
    have hcond : ¬(p.mWidth + expansion * 2 > 0 ∧ p.mHeight + expansion * 2 > 0) := by
      rw [e1, e2]; exact hneg
    simp only [FootprintPad.getOutline]
    rw [if_neg hcond]

/-- Witness for C4 at a concrete pad. -/
theorem C4_getOutline_shapes_witness :
    FootprintPad.getOutline padW 1 = Path.obround 6 4 ∧
    FootprintPad.getOutline padW (-2) = Path.empty := by
  constructor
  · have h := (C4_getOutline_shapes padW 1).1 (by decide) (by decide)
    simpa using h
  · exact (C4_getOutline_shapes padW (-2)).2 (by decide)

/-- Claim C5: `FootprintPad` behaves as a value object — after copy
assignment or copy construction from `b` the result equals `b` under
`operator==`, and `operator==` compares exactly the eight data attributes. -/
theorem C5_value_semantics (a b : FootprintPad) :
    FootprintPad.eqOp (FootprintPad.assign a b) b = true ∧
    FootprintPad.eqOp (FootprintPad.copyCtor b) b = true ∧
    (FootprintPad.eqOp a b = true ↔
      (a.mPackagePadUuid = b.mPackagePadUuid ∧ a.mPosition = b.mPosition ∧
       a.mRotation = b.mRotation ∧ a.mShape = b.mShape ∧ a.mWidth = b.mWidth ∧
       a.mHeight = b.mHeight ∧ a.mDrillDiameter = b.mDrillDiameter ∧
       a.mBoardSide = b.mBoardSide)) := by
  refine ⟨?_, ?_, ?_⟩
  · simp [FootprintPad.assign, FootprintPad.eqOp]
  · simp [FootprintPad.copyCtor, FootprintPad.assign, FootprintPad.eqOp]
  · unfold FootprintPad.eqOp
    split_ifs <;> simp_all

/-- Claim C9: each `FootprintPad` setter modifies only its own named
attribute and leaves the other seven data attributes unchanged. -/
theorem C9_setters_frame (p : FootprintPad) (pos : Point) (u : Uuid)
    (rot : Angle) (sh : Shape) (w hgt d : Length) (side : BoardSide) :
    ((p.setPosition pos).mPosition = pos ∧
     (p.setPosition pos).mPackagePadUuid = p.mPackagePadUuid ∧
     (p.setPosition pos).mRotation = p.mRotation ∧
     (p.setPosition pos).mShape = p.mShape ∧
     (p.setPosition pos).mWidth = p.mWidth ∧
     (p.setPosition pos).mHeight = p.mHeight ∧
     (p.setPosition pos).mDrillDiameter = p.mDrillDiameter ∧
     (p.setPosition pos).mBoardSide = p.mBoardSide) ∧
    ((p.setPackagePadUuid u).mPackagePadUuid = u ∧
     (p.setPackagePadUuid u).mPosition = p.mPosition ∧
     (p.setPackagePadUuid u).mRotation = p.mRotation ∧
     (p.setPackagePadUuid u).mShape = p.mShape ∧
     (p.setPackagePadUuid u).mWidth = p.mWidth ∧
     (p.setPackagePadUuid u).mHeight = p.mHeight ∧
     (p.setPackagePadUuid u).mDrillDiameter = p.mDrillDiameter ∧
     (p.setPackagePadUuid u).mBoardSide = p.mBoardSide) ∧
    ((p.setRotation rot).mRotation = rot ∧
     (p.setRotation rot).mPackagePadUuid = p.mPackagePadUuid ∧
     (p.setRotation rot).mPosition = p.mPosition ∧
     (p.setRotation rot).mShape = p.mShape ∧
     (p.setRotation rot).mWidth = p.mWidth ∧
     (p.setRotation rot).mHeight = p.mHeight ∧
     (p.setRotation rot).mDrillDiameter = p.mDrillDiameter ∧
     (p.setRotation rot).mBoardSide = p.mBoardSide) ∧
    ((p.setShape sh).mShape = sh ∧
     (p.setShape sh).mPackagePadUuid = p.mPackagePadUuid ∧
     (p.setShape sh).mPosition = p.mPosition ∧
     (p.setShape sh).mRotation = p.mRotation ∧
     (p.setShape sh).mWidth = p.mWidth ∧
     (p.setShape sh).mHeight = p.mHeight ∧
     (p.setShape sh).mDrillDiameter = p.mDrillDiameter ∧
     (p.setShape sh).mBoardSide = p.mBoardSide) ∧
    ((p.setWidth w).mWidth = w ∧
     (p.setWidth w).mPackagePadUuid = p.mPackagePadUuid ∧
     (p.setWidth w).mPosition = p.mPosition ∧
     (p.setWidth w).mRotation = p.mRotation ∧
     (p.setWidth w).mShape = p.mShape ∧
     (p.setWidth w).mHeight = p.mHeight ∧
     (p.setWidth w).mDrillDiameter = p.mDrillDiameter ∧
     (p.setWidth w).mBoardSide = p.mBoardSide) ∧
    ((p.setHeight hgt).mHeight = hgt ∧
     (p.setHeight hgt).mPackagePadUuid = p.mPackagePadUuid ∧
     (p.setHeight hgt).mPosition = p.mPosition ∧
     (p.setHeight hgt).mRotation = p.mRotation ∧
     (p.setHeight hgt).mShape = p.mShape ∧
     (p.setHeight hgt).mWidth = p.mWidth ∧
     (p.setHeight hgt).mDrillDiameter = p.mDrillDiameter ∧
     (p.setHeight hgt).mBoardSide = p.mBoardSide) ∧
    ((p.setDrillDiameter d).mDrillDiameter = d ∧
     (p.setDrillDiameter d).mPackagePadUuid = p.mPackagePadUuid ∧
     (p.setDrillDiameter d).mPosition = p.mPosition ∧
     (p.setDrillDiameter d).mRotation = p.mRotation ∧
     (p.setDrillDiameter d).mShape = p.mShape ∧
     (p.setDrillDiameter d).mWidth = p.mWidth ∧
     (p.setDrillDiameter d).mHeight = p.mHeight ∧
     (p.setDrillDiameter d).mBoardSide = p.mBoardSide) ∧
    ((p.setBoardSide side).mBoardSide = side ∧
     (p.setBoardSide side).mPackagePadUuid = p.mPackagePadUuid ∧
     (p.setBoardSide side).mPosition = p.mPosition ∧
     (p.setBoardSide side).mRotation = p.mRotation ∧
     (p.setBoardSide side).mShape = p.mShape ∧
     (p.setBoardSide side).mWidth = p.mWidth ∧
     (p.setBoardSide side).mHeight = p.mHeight ∧
     (p.setBoardSide side).mDrillDiameter = p.mDrillDiameter) := by
  refine ⟨?_, ?_, ?_, ?_, ?_, ?_, ?_, ?_⟩ <;>
    exact ⟨rfl, rfl, rfl, rfl, rfl, rfl, rfl, rfl⟩

/-- Witness for C5 at a concrete pair of pads. -/
theorem C5_value_semantics_witness :
    FootprintPad.eqOp (FootprintPad.assign padW padW) padW = true :=
  (C5_value_semantics padW padW).1

/-- Sequencing two `Except` computations neither of which can produce a
`LogicError` cannot produce a `LogicError`. -/
theorem logicFree_bind {α β : Type} (x : Except Exc α) (f : α → Except Exc β)
    (hx : x ≠ Except.error Exc.logicError)
    (hf : ∀ a : α, f a ≠ Except.error Exc.logicError) :
    (x >>= f) ≠ Except.error Exc.logicError := by
  cases x with
  | error e => simpa [bind, Except.bind] using hx
  | ok a => simpa [bind, Except.bind] using hf a

/-- Parsing the attributes never throws a `LogicError`: every failure of the
reading prefix of the deserializing constructor is a `RuntimeError`. -/
theorem parseAttributes_no_logicError (node : List SNode) :
    FootprintPad.parseAttributes node ≠ Except.error Exc.logicError := by
  unfold FootprintPad.parseAttributes
  apply logicFree_bind
  · unfold getUuidValue; split <;> simp
  intro u
  apply logicFree_bind
  · unfold requireChild; split <;> simp
  intro posBody
  apply logicFree_bind
  · unfold pointFromSExpr; split <;> simp
  intro pos
  apply logicFree_bind
  · unfold getAngleValue; split <;> simp
  intro rot
  apply logicFree_bind
  · unfold getStrValue; split <;> simp
  intro sideStr
  apply logicFree_bind
  · unfold stringToBoardSide; split_ifs <;> simp
  intro side
  apply logicFree_bind
  · unfold getStrValue; split <;> simp
  intro shapeStr
  apply logicFree_bind
  · unfold stringToShape; split_ifs <;> simp
  intro shp
  apply logicFree_bind
  · unfold getLengthValue; split <;> simp
  intro drill
  apply logicFree_bind
  · unfold requireChild; split <;> simp
  intro sizeBody
  apply logicFree_bind
  · unfold pointFromSExpr; split <;> simp
  intro size
  simp

/-- Claim C2: `serialize` throws a `LogicError` exactly when the pad's
attributes are invalid and leaves the root unchanged in that case (the check
runs before any append); the deserializing constructor throws a `LogicError`
exactly when the parsed attributes are invalid; and invalid means exactly a
null package-pad UUID, width ≤ 0, height ≤ 0 or drill diameter < 0. -/
theorem C2_validity_and_errors :
    (∀ (p : FootprintPad) (root : List SNode),
      ((p.serialize root).2 = some Exc.logicError ↔
        p.checkAttributesValidity = false) ∧
      ((p.serialize root).2 = none ↔ p.checkAttributesValidity = true) ∧
      ((p.serialize root).2 = some Exc.logicError → (p.serialize root).1 = root)) ∧
    (∀ node : List SNode,
      (FootprintPad.fromSExpression node = Except.error Exc.logicError ↔
        ∃ q : FootprintPad, FootprintPad.parseAttributes node = Except.ok q ∧
          q.checkAttributesValidity = false)) ∧
    (∀ p : FootprintPad,
      (p.checkAttributesValidity = false ↔
        (p.mPackagePadUuid = none ∨ p.mWidth ≤ 0 ∨ p.mHeight ≤ 0 ∨
         p.mDrillDiameter < 0))) := by
  refine ⟨?_, ?_, ?_⟩
  · intro p root
    cases hv : p.checkAttributesValidity <;>
      simp [FootprintPad.serialize, hv]
  · intro node
    cases hp : FootprintPad.parseAttributes node with
    | error e =>
        have hne := parseAttributes_no_logicError node
        rw [hp] at hne
        constructor
        · intro h
          exfalso
          simp only [FootprintPad.fromSExpression, hp] at h
          cases h
          exact hne rfl
        · rintro ⟨q, hq, _⟩
          simp [hp] at hq
    | ok q =>
        cases hv : q.checkAttributesValidity <;>
          simp [FootprintPad.fromSExpression, hp, hv]
  · intro p
    unfold FootprintPad.checkAttributesValidity
    split_ifs <;> simp_all [uuidIsNull, Option.isNone_iff_eq_none]

/-- Witness for C2 at concrete inputs: an invalid pad (width 0) makes
`serialize` throw a `LogicError` and leave the root unchanged. -/
theorem C2_validity_and_errors_witness :
    (FootprintPad.serialize { padW with mWidth := 0 } []).2 = some Exc.logicError ∧
    (FootprintPad.serialize { padW with mWidth := 0 } []).1 = [] := by
  have h := (C2_validity_and_errors.1 { padW with mWidth := 0 } [])
  have hv : FootprintPad.checkAttributesValidity { padW with mWidth := 0 } = false := by decide
  have h1 := h.1.mpr hv
  exact ⟨h1, h.2.2 h1⟩

/-- Claim C1: serializing a valid pad and deserializing the result yields a
pad equal to the original under `operator==`. -/
theorem C1_serialize_roundtrip (p : FootprintPad)
    (hv : p.checkAttributesValidity = true) :
    ∃ p2 : FootprintPad,
      FootprintPad.fromSExpression (p.serialize []).1 = Except.ok p2 ∧
      FootprintPad.eqOp p2 p = true := by
  obtain ⟨u, pos, rot, sh, w, hgt, d, side, reg⟩ := p
  refine ⟨{ mPackagePadUuid := u, mPosition := pos, mRotation := rot, mShape := sh,
            mWidth := w, mHeight := hgt, mDrillDiameter := d, mBoardSide := side,
            mRegisteredGraphicsItem := none }, ?_, ?_⟩
  · have hs1 : (FootprintPad.serialize
        ⟨u, pos, rot, sh, w, hgt, d, side, reg⟩ []).1 =
        [SNode.token (Token.uuidTok u),
         SNode.child "side" [SNode.token (Token.strTok (boardSideToString side))],
         SNode.child "shape" [SNode.token (Token.strTok (shapeToString sh))],
         pointSerialize "pos" pos,
         SNode.child "rot" [SNode.token (Token.angleTok rot)],
         pointSerialize "size" ⟨w, hgt⟩,
         SNode.child "drill" [SNode.token (Token.lengthTok d)]] := by
      simp [FootprintPad.serialize, hv]
    rw [hs1]
    have hparse : FootprintPad.parseAttributes
        [SNode.token (Token.uuidTok u),
         SNode.child "side" [SNode.token (Token.strTok (boardSideToString side))],
         SNode.child "shape" [SNode.token (Token.strTok (shapeToString sh))],
         pointSerialize "pos" pos,
         SNode.child "rot" [SNode.token (Token.angleTok rot)],
         pointSerialize "size" ⟨w, hgt⟩,
         SNode.child "drill" [SNode.token (Token.lengthTok d)]] =
        Except.ok { mPackagePadUuid := u, mPosition := pos, mRotation := rot,
                    mShape := sh, mWidth := w, mHeight := hgt,
                    mDrillDiameter := d, mBoardSide := side,
                    mRegisteredGraphicsItem := none } := by
      cases sh <;> cases side <;> rfl
    rw [FootprintPad.fromSExpression, hparse]
    have hv2 : FootprintPad.checkAttributesValidity
        { mPackagePadUuid := u, mPosition := pos, mRotation := rot, mShape := sh,
          mWidth := w, mHeight := hgt, mDrillDiameter := d, mBoardSide := side,
          mRegisteredGraphicsItem := none } = true := hv
    simp [hv2]
  · simp [FootprintPad.eqOp]

/-- Witness for C1 at a concrete valid pad. -/
theorem C1_serialize_roundtrip_witness :
    FootprintPad.checkAttributesValidity padW = true ∧
    ∃ p2 : FootprintPad,
      FootprintPad.fromSExpression (FootprintPad.serialize padW []).1 =
        Except.ok p2 ∧
      FootprintPad.eqOp p2 padW = true :=
  ⟨by decide, C1_serialize_roundtrip padW (by decide)⟩

/-! ## Theorems about `SES_AddComponents` -/

/-- A concrete environment with no external failures, used by witnesses. -/
def envW : Env :=
  { hasActiveSchematic := true, cursorPos := ⟨0, 0⟩, dialogAccepted := true,
    fileGenCompUuid := some 1, fileGenCompVersion := 1,
    findGenComp := fun _ => none, selectedSymbVarUuid := some 2,
    beginCommandThrows := false, appendCommandThrows := false,
    endCommandThrows := false, abortCommandThrows := false }

/-- A concrete state in the middle of placing a symbol, used by witnesses. -/
def sPlacing : SES_AddComponents :=
  { SES_AddComponents.initial with
      mIsUndoCmdActive := true,
      mCurrentSymbolToPlace := some { pos := ⟨1, 2⟩ },
      mCurrentSymbolEditCommand := some { ops := [] } }

/-- Claim C8: with an active undo command (and the active schematic and
non-null event the code asserts), `processSceneEvent` returns
`ForceStayInState` for every graphics-scene event it does not otherwise
handle, except the mouse-wheel event which returns `PassToParentState`; with
no active undo command every scene event returns `PassToParentState`. -/
theorem C8_scene_event_dispatch (s : SES_AddComponents) (env : Env) :
    (s.mIsUndoCmdActive = false →
      ∀ qevent : Option QEventData,
        processSceneEvent s env qevent =
          some (ProcRetVal.PassToParentState, s)) ∧
    (s.mIsUndoCmdActive = true → env.hasActiveSchematic = true →
      (∀ n : Nat,
        processSceneEvent s env (some (QEventData.otherQEvent n)) =
          some (ProcRetVal.ForceStayInState, s)) ∧
      processSceneEvent s env (some QEventData.wheel) =
        some (ProcRetVal.PassToParentState, s)) := by
  constructor
  · intro h qevent
    cases qevent with
    | none => rfl
    | some qe =>
        cases hsc : env.hasActiveSchematic <;>
          simp [processSceneEvent, h, hsc]
  · intro h hsc
    constructor
    · intro n; simp [processSceneEvent, h, hsc]
    · simp [processSceneEvent, h, hsc]

/-- Witness for C8 at concrete states and events. -/
theorem C8_scene_event_dispatch_witness :
    processSceneEvent sPlacing envW (some (QEventData.otherQEvent 5)) =
      some (ProcRetVal.ForceStayInState, sPlacing) ∧
    processSceneEvent sPlacing envW (some QEventData.wheel) =
      some (ProcRetVal.PassToParentState, sPlacing) ∧
    processSceneEvent SES_AddComponents.initial envW
        (some (QEventData.otherQEvent 5)) =
      some (ProcRetVal.PassToParentState, SES_AddComponents.initial) :=
  ⟨((C8_scene_event_dispatch sPlacing envW).2 rfl rfl).1 5,
   ((C8_scene_event_dispatch sPlacing envW).2 rfl rfl).2,
   (C8_scene_event_dispatch SES_AddComponents.initial envW).1 rfl
     (some (QEventData.otherQEvent 5))⟩

/-- Claim C10: the rotate events dereference the current edit command and
the current symbol without a null check — with either pointer null the code
crashes (modelled as `none`); when both are non-null, `process` records a
rotation of plus or minus ninety degrees about the current symbol's position
on the edit command and returns `ForceStayInState`. -/
theorem C10_rotate_events (s : SES_AddComponents) (env : Env) :
    (∀ (cmd : EditCmd) (sym : SymbolInstance),
      s.mCurrentSymbolEditCommand = some cmd →
      s.mCurrentSymbolToPlace = some sym →
      process s env SEE_Event.editRotateCW =
        some (ProcRetVal.ForceStayInState,
          { s with mCurrentSymbolEditCommand := some (EditCmd.rotate cmd angleDeg90 sym.pos true) }) ∧
      process s env SEE_Event.editRotateCCW =
        some (ProcRetVal.ForceStayInState,
          { s with mCurrentSymbolEditCommand := some (EditCmd.rotate cmd (-angleDeg90) sym.pos true) })) ∧
    (s.mCurrentSymbolEditCommand = none ∨ s.mCurrentSymbolToPlace = none →
      process s env SEE_Event.editRotateCW = none ∧
      process s env SEE_Event.editRotateCCW = none) := by
  constructor
  · intro cmd sym hcmd hsym
    constructor <;> simp [process, hcmd, hsym]
  · intro h
    rcases h with h | h
    · cases hsym : s.mCurrentSymbolToPlace <;>
        constructor <;> simp [process, h, hsym]
    · cases hcmd : s.mCurrentSymbolEditCommand <;>
        constructor <;> simp [process, h, hcmd]

/-- Witness for C10 at a concrete placing state. -/
theorem C10_rotate_events_witness :
    process sPlacing envW SEE_Event.editRotateCW =
      some (ProcRetVal.ForceStayInState,
        { sPlacing with mCurrentSymbolEditCommand := some (EditCmd.rotate { ops := [] } angleDeg90 ⟨1, 2⟩ true) }) ∧
    process SES_AddComponents.initial envW SEE_Event.editRotateCW = none :=
  ⟨((C10_rotate_events sPlacing envW).1 { ops := [] } { pos := ⟨1, 2⟩ }
      rfl rfl).1,
   ((C10_rotate_events SES_AddComponents.initial envW).2 (Or.inl rfl)).1⟩

/-- The fully-reset invariant claimed for the state machine: no undo command
active and the five pointers null. -/
def fullyReset (s : SES_AddComponents) : Bool :=
  !s.mIsUndoCmdActive && s.mCurrentSymbolEditCommand.isNone &&
  s.mGenComp.isNone && s.mGenCompSymbVar.isNone &&
  s.mCurrentSymbVarItem.isNone && s.mCurrentSymbolToPlace.isNone

/-- Whenever `abortCommand` returns true the state is fully reset. -/
theorem abortCommand_true_reset (s : SES_AddComponents) (env : Env) (b : Bool) :
    (abortCommand s env b).1 = true → fullyReset (abortCommand s env b).2 = true := by
  unfold abortCommand fullyReset
  cases hA : s.mIsUndoCmdActive <;> cases hT : env.abortCommandThrows <;>
    simp [hA, hT]

/-- A concrete symbol variant and generic component for the state-machine
counterexamples and witnesses. -/
def svA : SymbVar := { uuid := some 2, items := [{ uuid := some 3 }] }

/-- A concrete generic component with the single variant `svA`. -/
def gcA : GenComp := { uuid := some 1, version := 1, symbolVariants := [svA] }

/-- An environment whose library contains `gcA` and in which appending to
the undo stack and aborting the undo command both throw. -/
def envAbortFails : Env :=
  { envW with findGenComp := fun u => if u = some 1 then some gcA else none,
              appendCommandThrows := true, abortCommandThrows := true }

/-- An environment whose library contains `gcA` and nothing fails, so that
looking up a symbol variant absent from `gcA` throws a `LogicError` before
the undo command is begun. -/
def envVarMissing : Env :=
  { envW with findGenComp := fun u => if u = some 1 then some gcA else none }

/-- Counterexample to claim C6: `entry` fails after `startAddingComponent`
threw past `beginCommand` (the append threw) and the abort of the undo
command itself threw — `entry` returns false with the undo command still
active, contradicting the claim that a false return leaves no undo command
active. -/
theorem C6_counterexample :
    entry SES_AddComponents.initial envAbortFails
        (some (SEE_Event.startAddComponent (some 1) (some 2))) =
      some (false,
        { SES_AddComponents.initial with
            mIsUndoCmdActive := true, mGenComp := some gcA,
            mGenCompSymbVar := some svA }) ∧
    ({ SES_AddComponents.initial with
         mIsUndoCmdActive := true, mGenComp := some gcA,
         mGenCompSymbVar := some svA } : SES_AddComponents).mIsUndoCmdActive
      = true := by
  constructor <;> rfl

/-- Claim C6 (amended): `entry` accepts only `StartAddComponent` events —
for a null event or an event of any other type it returns false with the
state unchanged; whenever `entry` returns false after a failed start the
component-chooser dialog pointer is null, and no undo command is left active
provided the abort of an active undo command does not itself throw. -/
theorem C6_entry_accepts_amended :
    (∀ (s : SES_AddComponents) (env : Env),
      entry s env none = some (false, s)) ∧
    (∀ (s : SES_AddComponents) (env : Env) (e : SEE_Event),
      (∀ gcU svU : Uuid, e ≠ SEE_Event.startAddComponent gcU svU) →
      entry s env (some e) = some (false, s)) ∧
    (∀ (s : SES_AddComponents) (env : Env) (gcU svU : Uuid)
       (s2 : SES_AddComponents),
      entry s env (some (SEE_Event.startAddComponent gcU svU)) =
        some (false, s2) →
      s2.mAddGenCompDialog = none ∧
      (env.abortCommandThrows = false → s2.mIsUndoCmdActive = false)) := by
  refine ⟨?_, ?_, ?_⟩
  · intro s env; rfl
  · intro s env e h
    cases e <;> try rfl
    exact absurd rfl (h _ _)
  · intro s env gcU svU s2 h
    cases hr : startAddingComponent { s with mLastAngle := 0 } env gcU svU with
    | none => simp [entry, hr] at h
    | some pr =>
      obtain ⟨sx, oe⟩ := pr
      cases oe with
      | none => simp [entry, hr] at h
      | some e0 =>
        simp only [entry, hr] at h
        injection h with h1
        injection h1 with hfalse hstate
        subst hstate
        constructor
        · rfl
        · intro hthrow
          cases hA : sx.mIsUndoCmdActive with
          | false => simp [hA]
          | true => simp [abortCommand, hA, hthrow]

/-- Witness for the amended C6 at concrete inputs. -/
theorem C6_entry_accepts_amended_witness :
    entry SES_AddComponents.initial envW none =
      some (false, SES_AddComponents.initial) ∧
    ({ SES_AddComponents.initial with mGenComp := some gcA } :
        SES_AddComponents).mAddGenCompDialog = none ∧
    ({ SES_AddComponents.initial with mGenComp := some gcA } :
        SES_AddComponents).mIsUndoCmdActive = false :=
  ⟨C6_entry_accepts_amended.1 SES_AddComponents.initial envW,
   (C6_entry_accepts_amended.2.2 SES_AddComponents.initial envVarMissing
      (some 1) (some 9) _ rfl).1,
   (C6_entry_accepts_amended.2.2 SES_AddComponents.initial envVarMissing
      (some 1) (some 9) _ rfl).2 rfl⟩

/-- Counterexample to claim C7: an error handled by `entry` while no undo
command was active (the requested symbol variant is absent from the
component, so `startAddingComponent` throws a `LogicError` before
`beginCommand`) leaves `mGenComp` non-null — the reset invariant is not
re-established after this handled error. -/
theorem C7_counterexample :
    entry SES_AddComponents.initial envVarMissing
        (some (SEE_Event.startAddComponent (some 1) (some 9))) =
      some (false, { SES_AddComponents.initial with mGenComp := some gcA }) ∧
    fullyReset { SES_AddComponents.initial with mGenComp := some gcA } = false := by
  constructor <;> rfl

/-- Claim C7 (amended): whenever `abortCommand` returns true the state is
fully reset (`mIsUndoCmdActive` false and the five pointers null), and the
invariant is (re)established on every successful exit from the state; after
a handled error it is re-established only when an active undo command was
aborted successfully. -/
theorem C7_reset_invariant_amended :
    (∀ (s : SES_AddComponents) (env : Env) (b : Bool),
      (abortCommand s env b).1 = true →
      fullyReset (abortCommand s env b).2 = true) ∧
    (∀ (s : SES_AddComponents) (env : Env) (s2 : SES_AddComponents),
      exitState s env = (true, s2) → fullyReset s2 = true) := by
  constructor
  · exact abortCommand_true_reset
  · intro s env s2 h
    unfold exitState at h
    cases hr : abortCommand s env true with
    | mk ok s1 =>
      rw [hr] at h
      cases ok with
      | false => simp at h
      | true =>
        injection h with h1 h2
        subst h2
        have hreset := abortCommand_true_reset s env true
        rw [hr] at hreset
        simpa [fullyReset] using hreset rfl

/-- Witness for the amended C7 at a concrete state. -/
theorem C7_reset_invariant_amended_witness :
    fullyReset (abortCommand sPlacing envW true).2 = true :=
  C7_reset_invariant_amended.1 sPlacing envW true rfl

end librepcb
